import Mathlib

/-!
Shallow embedding of the audiracer real-time simulation core.

The authoritative source is `src/components/GameCanvas.tsx` (the `update`
function, sections 1-6, and the surrounding `loop` frame driver); the
mobile port in `src/mobile/src/hooks/useGameEngine.ts` contributes its
resource-depletion formula.  JS numbers are modelled as exact rationals
(`ℚ`), `performance.now()` as an explicit `now : ℚ` parameter (one value
per tick), and the ambient `Math.random()` draws of the spawner as an
explicit `Oracle` record holding one draw per call site, in the order the
source draws them.  The DEV-only `window.DEBUG_TRIGGER_CRASH` block, the
particle/floating-text containers (pure presentation, they feed back into
nothing the claims mention), the sound-effect calls and the `onProgress`
callback are not modelled; `onGameOver` is modelled as the optional
event value returned by a tick.
-/

namespace Audiracer

inductive EngineType
  | EV
  | ICE
deriving DecidableEq

structure CarStats where
  speed : ℚ
  handling : ℚ
  accel : ℚ
deriving DecidableEq

structure CarModel where
  type : EngineType
  stats : CarStats
deriving DecidableEq

/-- Game-over reasons; the source's union is `'CRASH' | 'EMPTY_BATTERY' | 'EMPTY_FUEL'`,
with `null` assigned at crash recovery, hence `Option Reason` in the state. -/
inductive Reason
  | CRASH
  | EMPTY_BATTERY
  | EMPTY_FUEL
deriving DecidableEq

inductive EntityType
  | enemy_bmw
  | enemy_merc
  | enemy_toyota
  | zombie
  | projectile
  | battery
  | fuel
deriving DecidableEq

structure Entity where
  id : ℕ
  type : EntityType
  lane : ℚ
  z : ℚ
  speed : ℚ
  active : Bool
deriving DecidableEq

structure Keys where
  left : Bool
  right : Bool
  up : Bool
  down : Bool
  shoot : Bool
deriving DecidableEq

/-- Payload of the `onGameOver` callback. -/
structure GameOverStats where
  score : ℤ
  distance : ℤ
  killCount : ℕ
  reason : Option Reason
deriving DecidableEq

/-- The mutable `gameState.current` record of `GameCanvas.tsx`. -/
structure GameState where
  isPlaying : Bool
  isCrashing : Bool
  crashDriftDir : ℚ
  gameOverReason : Option Reason
  shakeTimer : ℤ
  flashTimer : ℤ
  crashTime : ℚ
  speed : ℚ
  score : ℚ
  distance : ℚ
  playerX : ℚ
  isBraking : Bool
  energy : ℚ
  zombiesKilled : ℕ
  lives : ℤ
  isGameOver : Bool
  entities : List Entity
  projectiles : List Entity
  keys : Keys
  lastTime : ℚ
  lastShotTime : ℚ
  startTime : ℚ
  entityCounter : ℕ
deriving DecidableEq

/-- Player reference depth (`const PLAYER_Z = 300`). -/
def PLAYER_Z : ℚ := 300

def noKeys : Keys :=
  { left := false, right := false, up := false, down := false, shoot := false }

/-- Initial `gameState.current` value (race start). -/
def initialState (startTime : ℚ) : GameState :=
  { isPlaying := true
    isCrashing := false
    crashDriftDir := 0
    gameOverReason := some Reason.CRASH
    shakeTimer := 0
    flashTimer := 0
    crashTime := 0
    speed := 0
    score := 0
    distance := 0
    playerX := 0
    isBraking := false
    energy := 100
    zombiesKilled := 0
    lives := 3
    isGameOver := false
    entities := []
    projectiles := []
    keys := noKeys
    lastTime := 0
    lastShotTime := 0
    startTime := startTime
    entityCounter := 0 }

/-- One `Math.random()` draw per call site of the spawner, in source order:
spawn-chance roll, lane roll, traffic-speed roll, entity-kind roll, enemy-variant roll. -/
structure Oracle where
  spawnRoll : ℚ
  laneRoll : ℚ
  speedRoll : ℚ
  typeRoll : ℚ
  enemyRoll : ℚ
deriving DecidableEq

/-- Oracle whose draws are all 1, so that every strict `<` spawn-chance test fails. -/
def noSpawnOracle : Oracle :=
  { spawnRoll := 1, laneRoll := 1, speedRoll := 1, typeRoll := 1, enemyRoll := 1 }

/-- Section 1 of `update`: steering, or crash drift while crashing.  Steering is
clamped to `[-0.75, 0.75]`; the crash-drift branch is unclamped in the source. -/
def steerPhase (car : CarModel) (dt : ℚ) (s : GameState) : GameState :=
  let HANDLING := car.stats.handling / 25000 * (1 + s.speed / 500)
  if s.isCrashing then
    { s with playerX := s.playerX + s.crashDriftDir * (2 / 100 * (s.speed / 100)) * dt }
  else
    let x1 := if s.keys.left then max (-(3 : ℚ) / 4) (s.playerX - HANDLING * dt) else s.playerX
    let x2 := if s.keys.right then min ((3 : ℚ) / 4) (x1 + HANDLING * dt) else x1
    { s with playerX := x2 }

/-- The `if (state.flashTimer > 0) state.flashTimer--` line inside `update`. -/
def flashDecPhase (s : GameState) : GameState :=
  if s.flashTimer > 0 then { s with flashTimer := s.flashTimer - 1 } else s

/-- Acceleration / braking / crash decay, the floor at zero, and the distance
integration (source lines around `TARGET_SPEED` .. `state.distance +=`). -/
def speedPhase (car : CarModel) (isRaceStarted : Bool) (dt : ℚ) (s : GameState) : GameState :=
  let TARGET := if s.keys.up && isRaceStarted then car.stats.speed * (16 / 5) else 0
  let ACCEL := car.stats.accel / 1200
  let BRAKE := (8 : ℚ) / 100
  let s1 : GameState :=
    if s.isCrashing then
      let sp := s.speed * (94 / 100)
      let sp2 := if sp < 5 then sp - 1 / 2 else sp
      { s with speed := sp2 }
    else if s.keys.down then
      { s with isBraking := true, speed := s.speed - BRAKE * dt }
    else
      let sp :=
        if s.speed < TARGET then s.speed + ACCEL * dt
        else if s.speed > TARGET then s.speed - 1 / 100 * dt
        else s.speed
      { s with isBraking := false, speed := sp }
  let s2 := if s1.speed < 0 then { s1 with speed := 0 } else s1
  { s2 with distance := s2.distance + s2.speed / 1000 * dt * 5 }

/-- Per-millisecond resource depletion of the web engine (`GameCanvas.tsx`):
`state.energy -= (state.speed / 500000) * deltaTime`.  Note that it does not
depend on the distance travelled. -/
def webDepletion (speed dt : ℚ) : ℚ := speed / 500000 * dt

/-- Resource depletion of the mobile engine (`useGameEngine.ts`, `updatePhysics`):
`difficultyMultiplier = 1 + state.distance / 20000` and
`state.energy -= (state.speed / 300000) * deltaTime * difficultyMultiplier`. -/
def mobileDepletion (speed dt distance : ℚ) : ℚ :=
  speed / 300000 * dt * (1 + distance / 20000)

/-- Section 2 of `update`: resource depletion and the exhaustion crash. -/
def resourcePhase (car : CarModel) (now dt : ℚ) (s : GameState) : GameState :=
  if s.isCrashing = false ∧ s.speed > 5 then
    let e := s.energy - webDepletion s.speed dt
    if e ≤ 0 then
      { s with
        energy := e
        gameOverReason :=
          some (if car.type = EngineType.EV then Reason.EMPTY_BATTERY else Reason.EMPTY_FUEL)
        isCrashing := true
        crashTime := now }
    else { s with energy := e }
  else s

/-- Section 3 of `update`: shooting (EV only), rate limited and energy gated. -/
def shootPhase (car : CarModel) (now : ℚ) (s : GameState) : GameState :=
  if car.type = EngineType.EV ∧ s.keys.shoot = true ∧ s.isCrashing = false then
    if now - s.lastShotTime > 250 ∧ s.energy > 3 then
      { s with
        lastShotTime := now
        energy := s.energy - 2
        projectiles := s.projectiles ++
          [{ id := s.entityCounter, type := EntityType.projectile, lane := s.playerX,
             z := PLAYER_Z + 100, speed := s.speed + 150, active := true }]
        entityCounter := s.entityCounter + 1 }
    else s
  else s

/-- Section 4 of `update`: randomized spawning, driven by the oracle draws. -/
def spawnPhase (car : CarModel) (now : ℚ) (orc : Oracle) (s : GameState) : GameState :=
  let diffLevel := min 5 (1 + (⌊s.distance / 1000⌋ : ℚ) * (1 / 2))
  let spawnChance := 5 / 1000 * diffLevel
  let canSpawnEnemies := now - s.startTime > 2000
  if orc.spawnRoll < spawnChance ∧ s.isCrashing = false ∧ s.speed > 20 ∧ canSpawnEnemies then
    let lane : ℚ :=
      if orc.laneRoll < 33 / 100 then -(4 / 5) else if orc.laneRoll < 66 / 100 then 0 else 4 / 5
    let speed0 := max 30 (s.speed * (4 / 5 + orc.speedRoll * (3 / 20)))
    let isEV := car.type = EngineType.EV
    let resourceType := if isEV then EntityType.battery else EntityType.fuel
    let tySp : EntityType × ℚ :=
      if orc.typeRoll > 80 / 100 then (resourceType, s.speed * (85 / 100))
      else if isEV ∧ orc.typeRoll < 40 / 100 then (EntityType.zombie, s.speed * (85 / 100) + 15)
      else
        (if orc.enemyRoll < 33 / 100 then EntityType.enemy_bmw
         else if orc.enemyRoll < 66 / 100 then EntityType.enemy_merc
         else EntityType.enemy_toyota, speed0)
    let overlap := s.entities.any fun e => decide (e.z > 2500) && decide (|e.lane - lane| < 1 / 2)
    if overlap = false then
      { s with
        entities := s.entities ++
          [{ id := s.entityCounter, type := tySp.1, lane := lane, z := 3000,
             speed := tySp.2, active := true }]
        entityCounter := s.entityCounter + 1 }
    else s
  else s

/-- Section 5 of `update`, entity movement: depth advances by the relative speed,
and leaving `[-200, 3500]` deactivates. -/
def moveEntity (playerSpeed dt : ℚ) (e : Entity) : Entity :=
  let z := e.z - (playerSpeed - e.speed) * dt * (1 / 10)
  { e with z := z, active := e.active && !decide (z < -200) && !decide (z > 3500) }

/-- Section 5 of `update`, projectile movement: fixed advance, deactivated past 3000. -/
def moveProjectile (dt : ℚ) (p : Entity) : Entity :=
  let z := p.z + 120 * dt * (1 / 10)
  { p with z := z, active := p.active && !decide (z > 3000) }

/-- The `checkHit` helper of section 6: hit when the depth distance is under 120
and the lane distance is under the kind-specific width threshold. -/
def checkHit (aLane aZ bLane bZ width : ℚ) : Prop :=
  |aZ - bZ| < 120 ∧ |aLane - bLane| < width

instance (aLane aZ bLane bZ width : ℚ) : Decidable (checkHit aLane aZ bLane bZ width) := by
  unfold checkHit; exact instDecidableAnd

/-- Pickup kinds (`ent.type === 'battery' || ent.type === 'fuel'`). -/
def isPickup (t : EntityType) : Prop := t = EntityType.battery ∨ t = EntityType.fuel

instance (t : EntityType) : Decidable (isPickup t) := by
  unfold isPickup; exact instDecidableOr

/-- Processing of one entity by the player-collision `forEach` of section 6:
pickups are collected (energy clamped at 100), hazards begin a crash unless in
the grace period, already crashing, or invulnerable. -/
def collideStep (grace : Bool) (now : ℚ) (s : GameState) (e : Entity) : GameState × Entity :=
  if e.active = false then (s, e)
  else
    let threshold : ℚ := if isPickup e.type then 7 / 10 else 45 / 100
    if checkHit s.playerX PLAYER_Z e.lane e.z threshold then
      if isPickup e.type then
        ({ s with energy := min 100 (s.energy + 25) }, { e with active := false })
      else if grace = false ∧ s.isCrashing = false ∧ s.flashTimer ≤ 0 then
        ({ s with
            isCrashing := true
            crashTime := now
            crashDriftDir := if s.playerX < e.lane then -1 else 1
            shakeTimer := 30 }, e)
      else (s, e)
    else (s, e)

/-- Left-to-right threading of `collideStep` over the entity list, as the
source's `forEach` mutates `state` and each `ent` in place. -/
def collideList (grace : Bool) (now : ℚ) (s : GameState) : List Entity → GameState × List Entity
  | [] => (s, [])
  | e :: rest =>
      let r := collideStep grace now s e
      let r2 := collideList grace now r.1 rest
      (r2.1, r.2 :: r2.2)

def collidePhase (grace : Bool) (now : ℚ) (s : GameState) : GameState :=
  let r := collideList grace now s s.entities
  { r.1 with entities := r.2 }

/-- Inner `forEach` of the projectile-collision pass.  The source checks
`p.active` only before the inner loop starts, so a single projectile can
deactivate several overlapping hazards in one tick; the embedding replicates
that by not re-checking the projectile inside the recursion. -/
def projHitList (s : GameState) (p : Entity) :
    List Entity → GameState × Entity × List Entity
  | [] => (s, p, [])
  | ent :: rest =>
      if ent.active = false ∨ isPickup ent.type then
        let r := projHitList s p rest
        (r.1, r.2.1, ent :: r.2.2)
      else if checkHit p.lane p.z ent.lane ent.z (1 / 2) then
        let s1 :=
          if ent.type = EntityType.zombie then
            { s with zombiesKilled := s.zombiesKilled + 1 }
          else { s with score := s.score + 500 }
        let r := projHitList s1 { p with active := false } rest
        (r.1, r.2.1, { ent with active := false } :: r.2.2)
      else
        let r := projHitList s p rest
        (r.1, r.2.1, ent :: r.2.2)

/-- Outer `forEach` of the projectile-collision pass. -/
def projList (s : GameState) : List Entity → GameState × List Entity
  | [] => (s, [])
  | p :: rest =>
      if p.active = false then
        let r := projList s rest
        (r.1, p :: r.2)
      else
        let r := projHitList s p s.entities
        let s1 := { r.1 with entities := r.2.2 }
        let r2 := projList s1 rest
        (r2.1, r.2.1 :: r2.2)

def projectilePhase (s : GameState) : GameState :=
  let r := projList s s.projectiles
  { r.1 with projectiles := r.2 }

/-- End-of-tick crash resolution (the `if (state.isCrashing)` block): once speed
is below 5 and at least one second has passed since crash onset, either respawn
(when `lives > 0`: decrement a life, reset position/speed, grant invulnerability,
refill on exhaustion or apply the collision energy penalty, set distance back) or
go terminal and emit the `onGameOver` payload. -/
def resolvePhase (now : ℚ) (s : GameState) : GameState × Option GameOverStats :=
  if s.isCrashing = true then
    if s.speed < 5 ∧ now - s.crashTime > 1000 then
      if s.lives > 0 then
        let s1 := { s with
          lives := s.lives - 1
          isCrashing := false
          speed := 0
          playerX := 0
          flashTimer := 60 }
        let s2 :=
          if s1.gameOverReason = some Reason.EMPTY_BATTERY ∨
              s1.gameOverReason = some Reason.EMPTY_FUEL then
            { s1 with energy := 25, gameOverReason := none }
          else { s1 with energy := max 0 (s1.energy - 10) }
        ({ s2 with distance := max 0 (s2.distance - 50) }, none)
      else
        ({ s with isPlaying := false, isGameOver := true },
         some { score := ⌊s.distance + (s.zombiesKilled : ℚ) * 100⌋,
                distance := ⌊s.distance⌋,
                killCount := s.zombiesKilled,
                reason := s.gameOverReason })
    else (s, none)
  else (s, none)

/-- Sections 1-6 of `update` before the end-of-tick crash resolution, composed
in source order: steering, invulnerability decrement, speed and distance
integration, resource depletion, shooting, spawning, entity/projectile
movement, player and projectile collisions, and pruning of inactive entities. -/
def preResolve (car : CarModel) (isRaceStarted : Bool) (now dt : ℚ) (orc : Oracle)
    (s : GameState) : GameState :=
  let s1 := steerPhase car dt s
  let s2 := flashDecPhase s1
  let s3 := speedPhase car isRaceStarted dt s2
  let s4 := resourcePhase car now dt s3
  let s5 := shootPhase car now s4
  let s6 := spawnPhase car now orc s5
  let s7 := { s6 with
    entities := s6.entities.map (moveEntity s6.speed dt)
    projectiles := s6.projectiles.map (moveProjectile dt) }
  let grace := decide (now - s7.startTime < 3000)
  let s8 := collidePhase grace now s7
  let s9 := projectilePhase s8
  { s9 with
    entities := s9.entities.filter (fun e => e.active)
    projectiles := s9.projectiles.filter (fun p => p.active) }

/-- The `update(deltaTime)` game-logic tick of `GameCanvas.tsx`: the early
return when not playing, sections 1-6 (`preResolve`), then the crash
resolution.  Returns the next state and the `onGameOver` payload if this tick
emitted one. -/
def update (car : CarModel) (isRaceStarted : Bool) (now dt : ℚ) (orc : Oracle)
    (s : GameState) : GameState × Option GameOverStats :=
  if s.isPlaying = false then (s, none)
  else resolvePhase now (preResolve car isRaceStarted now dt orc s)

/-- The render pass of `loop(time)`: the shake-timer decrement at the screen
shake, then the second flash-timer decrement at the red overlay (the canvas is
mounted for the component's lifetime, so the render branch always runs). -/
def renderPhase (s : GameState) : GameState :=
  let s2 := if s.shakeTimer > 0 then { s with shakeTimer := s.shakeTimer - 1 } else s
  if s2.flashTimer > 0 then { s2 with flashTimer := s2.flashTimer - 1 } else s2

/-- The `loop(time)` frame driver: clamp `dt` to at most 50 ms, record
`lastTime`, run the game-logic tick, then the render pass. -/
def frame (car : CarModel) (isRaceStarted : Bool) (time : ℚ) (orc : Oracle)
    (s : GameState) : GameState × Option GameOverStats :=
  let dt := min (time - s.lastTime) 50
  let r := update car isRaceStarted time dt orc { s with lastTime := time }
  (renderPhase r.1, r.2)

/-- The Audi RS 6 Avant of `constants.ts`: the ICE car whose `speed` stat is 85
(`stats: { speed: 85, handling: 70, accel: 80 }`). -/
def rs6 : CarModel :=
  { type := EngineType.ICE, stats := { speed := 85, handling := 70, accel := 80 } }

/-- The Audi RS e-tron GT of `constants.ts` (`type: EV`, `stats: { speed: 90,
handling: 80, accel: 100 }`). -/
def etronGT : CarModel :=
  { type := EngineType.EV, stats := { speed := 90, handling := 80, accel := 100 } }

/-- A race over a list of ticks, counting the `onGameOver` emissions. -/
def updRun (car : CarModel) (rs : Bool) :
    List (ℚ × ℚ × Oracle) → GameState → GameState × ℕ
  | [], s => (s, 0)
  | t :: rest, s =>
      let r := update car rs t.1 t.2.1 t.2.2 s
      let r2 := updRun car rs rest r.1
      (r2.1, (if r.2.isSome then 1 else 0) + r2.2)

/-- A collision crash at one remaining life, already decelerated, more than one
second after crash onset: the next tick resolves the crash. -/
def c1State : GameState :=
  { initialState 0 with
    lives := 1
    isCrashing := true
    crashTime := 0
    speed := 0
    distance := 500 }

/-- The same crash-resolution situation with zero lives remaining. -/
def c1StateZero : GameState := { c1State with lives := 0 }

/-- Mid-crash state at the right steering boundary with positive drift. -/
def c2State : GameState :=
  { initialState 0 with
    isCrashing := true
    crashDriftDir := 1
    speed := 100
    playerX := 3 / 4
    crashTime := 1000000 }

/-- Almost-empty tank at speed 200: the next depletion tick crosses zero. -/
def c3State : GameState := { initialState 0 with energy := 1 / 100, speed := 200 }

/-- Moving state early in the race (distance 0). -/
def c4Near : GameState := { initialState 0 with speed := 100, energy := 50 }

/-- The same state ten kilometres further down the road. -/
def c4Far : GameState := { c4Near with distance := 10000 }

/-- Throttle held. -/
def c5Keys : Keys := { noKeys with up := true }

/-- Race start with the throttle held from tick 0. -/
def c5Init : GameState := { initialState 0 with keys := c5Keys }

/-- One 50 ms tick of the scenario-A run (throttle held, no spawns). -/
def c5Step (s : GameState) : GameState := (update rs6 true 0 50 noSpawnOracle s).1

/-- Everything the scenario-A run preserves tick over tick: still running, not
crashing, throttle held, no invulnerability, empty world, and the ramped speed
`n * 10/3` with an energy reserve large enough to survive the next ticks. -/
def RampOk (n : ℕ) (s : GameState) : Prop :=
  s.isPlaying = true ∧ s.isCrashing = false ∧ s.keys = c5Keys ∧ s.flashTimer = 0 ∧
  s.entities = [] ∧ s.projectiles = [] ∧ s.startTime = 0 ∧
  s.speed = (n : ℚ) * (10 / 3) ∧ 100 - (n : ℚ) / 10 ≤ s.energy

/-- A playing state with ten invulnerability frames left. -/
def c6State : GameState := { initialState 0 with flashTimer := 10 }

/-- A terminal state that still has invulnerability frames on the clock. -/
def c8State : GameState :=
  { initialState 0 with
    isPlaying := false
    isGameOver := true
    lives := 0
    flashTimer := 5 }

/-- A hazard sitting exactly at the player's reference depth and lane. -/
def wHazard : Entity :=
  { id := 0, type := EntityType.enemy_bmw, lane := 0, z := 300, speed := 0, active := true }

/-- An EV state with the fire button held and the rate limiter expired. -/
def wShootState : GameState :=
  { initialState 0 with keys := { noKeys with shoot := true } }

/-- An exhaustion crash about to resolve with lives in reserve. -/
def wRecoverState : GameState :=
  { initialState 0 with
    isCrashing := true
    speed := 0
    crashTime := 0
    lives := 2
    gameOverReason := some Reason.EMPTY_FUEL }

theorem steerPhase_speed (car : CarModel) (dt : ℚ) (s : GameState) :
    (steerPhase car dt s).speed = s.speed := by
  simp only [steerPhase]; split_ifs <;> rfl

theorem steerPhase_energy (car : CarModel) (dt : ℚ) (s : GameState) :
    (steerPhase car dt s).energy = s.energy := by
  simp only [steerPhase]; split_ifs <;> rfl

theorem steerPhase_flashTimer (car : CarModel) (dt : ℚ) (s : GameState) :
    (steerPhase car dt s).flashTimer = s.flashTimer := by
  simp only [steerPhase]; split_ifs <;> rfl

theorem steerPhase_isCrashing (car : CarModel) (dt : ℚ) (s : GameState) :
    (steerPhase car dt s).isCrashing = s.isCrashing := by
  simp only [steerPhase]; split_ifs <;> rfl

theorem steerPhase_crashTime (car : CarModel) (dt : ℚ) (s : GameState) :
    (steerPhase car dt s).crashTime = s.crashTime := by
  simp only [steerPhase]; split_ifs <;> rfl

theorem flashDecPhase_playerX (s : GameState) :
    (flashDecPhase s).playerX = s.playerX := by
  simp only [flashDecPhase]; split_ifs <;> rfl

theorem flashDecPhase_speed (s : GameState) :
    (flashDecPhase s).speed = s.speed := by
  simp only [flashDecPhase]; split_ifs <;> rfl

theorem flashDecPhase_energy (s : GameState) :
    (flashDecPhase s).energy = s.energy := by
  simp only [flashDecPhase]; split_ifs <;> rfl

theorem flashDecPhase_isCrashing (s : GameState) :
    (flashDecPhase s).isCrashing = s.isCrashing := by
  simp only [flashDecPhase]; split_ifs <;> rfl

theorem flashDecPhase_crashTime (s : GameState) :
    (flashDecPhase s).crashTime = s.crashTime := by
  simp only [flashDecPhase]; split_ifs <;> rfl

theorem flashDecPhase_pos (s : GameState) (h : 0 < s.flashTimer) :
    (flashDecPhase s).flashTimer = s.flashTimer - 1 := by
  unfold flashDecPhase; rw [if_pos h]

theorem speedPhase_playerX (car : CarModel) (rs : Bool) (dt : ℚ) (s : GameState) :
    (speedPhase car rs dt s).playerX = s.playerX := by
  simp only [speedPhase]; split_ifs <;> rfl

theorem speedPhase_energy (car : CarModel) (rs : Bool) (dt : ℚ) (s : GameState) :
    (speedPhase car rs dt s).energy = s.energy := by
  simp only [speedPhase]; split_ifs <;> rfl

theorem speedPhase_flashTimer (car : CarModel) (rs : Bool) (dt : ℚ) (s : GameState) :
    (speedPhase car rs dt s).flashTimer = s.flashTimer := by
  simp only [speedPhase]; split_ifs <;> rfl

theorem speedPhase_isCrashing (car : CarModel) (rs : Bool) (dt : ℚ) (s : GameState) :
    (speedPhase car rs dt s).isCrashing = s.isCrashing := by
  simp only [speedPhase]; split_ifs <;> rfl

theorem speedPhase_crashTime (car : CarModel) (rs : Bool) (dt : ℚ) (s : GameState) :
    (speedPhase car rs dt s).crashTime = s.crashTime := by
  simp only [speedPhase]; split_ifs <;> rfl

theorem resourcePhase_playerX (car : CarModel) (now dt : ℚ) (s : GameState) :
    (resourcePhase car now dt s).playerX = s.playerX := by
  simp only [resourcePhase]; split_ifs <;> rfl

theorem resourcePhase_speed (car : CarModel) (now dt : ℚ) (s : GameState) :
    (resourcePhase car now dt s).speed = s.speed := by
  simp only [resourcePhase]; split_ifs <;> rfl

theorem resourcePhase_flashTimer (car : CarModel) (now dt : ℚ) (s : GameState) :
    (resourcePhase car now dt s).flashTimer = s.flashTimer := by
  simp only [resourcePhase]; split_ifs <;> rfl

theorem resourcePhase_energy_le (car : CarModel) (now dt : ℚ) (s : GameState)
    (h : s.energy ≤ 100) (hdt : 0 ≤ dt) : (resourcePhase car now dt s).energy ≤ 100 := by
  simp only [resourcePhase, webDepletion]
  split_ifs with h1 h2
  all_goals first
    | exact h
    | (show s.energy - s.speed / 500000 * dt ≤ 100
       have h0 : 0 ≤ s.speed / 500000 * dt :=
         mul_nonneg (div_nonneg (by linarith [h1.2]) (by norm_num)) hdt
       linarith)

theorem resourcePhase_crashFrame (car : CarModel) (now dt : ℚ) (s : GameState)
    (h : s.isCrashing = false ∨ s.crashTime = now) :
    (resourcePhase car now dt s).isCrashing = false ∨
      (resourcePhase car now dt s).crashTime = now := by
  simp only [resourcePhase, webDepletion]
  split_ifs with h1 h2
  all_goals first
    | exact h
    | (right; rfl)

theorem shootPhase_playerX (car : CarModel) (now : ℚ) (s : GameState) :
    (shootPhase car now s).playerX = s.playerX := by
  simp only [shootPhase]; split_ifs <;> rfl

theorem shootPhase_speed (car : CarModel) (now : ℚ) (s : GameState) :
    (shootPhase car now s).speed = s.speed := by
  simp only [shootPhase]; split_ifs <;> rfl

theorem shootPhase_flashTimer (car : CarModel) (now : ℚ) (s : GameState) :
    (shootPhase car now s).flashTimer = s.flashTimer := by
  simp only [shootPhase]; split_ifs <;> rfl

theorem shootPhase_isCrashing (car : CarModel) (now : ℚ) (s : GameState) :
    (shootPhase car now s).isCrashing = s.isCrashing := by
  simp only [shootPhase]; split_ifs <;> rfl

theorem shootPhase_crashTime (car : CarModel) (now : ℚ) (s : GameState) :
    (shootPhase car now s).crashTime = s.crashTime := by
  simp only [shootPhase]; split_ifs <;> rfl

theorem shootPhase_gameOverReason (car : CarModel) (now : ℚ) (s : GameState) :
    (shootPhase car now s).gameOverReason = s.gameOverReason := by
  simp only [shootPhase]; split_ifs <;> rfl

theorem shootPhase_energy_le (car : CarModel) (now : ℚ) (s : GameState)
    (h : s.energy ≤ 100) : (shootPhase car now s).energy ≤ 100 := by
  simp only [shootPhase]
  split_ifs
  all_goals first
    | exact h
    | (show s.energy - 2 ≤ 100
       linarith)

theorem spawnPhase_playerX (car : CarModel) (now : ℚ) (orc : Oracle) (s : GameState) :
    (spawnPhase car now orc s).playerX = s.playerX := by
  simp only [spawnPhase]; split_ifs <;> rfl

theorem spawnPhase_speed (car : CarModel) (now : ℚ) (orc : Oracle) (s : GameState) :
    (spawnPhase car now orc s).speed = s.speed := by
  simp only [spawnPhase]; split_ifs <;> rfl

theorem spawnPhase_energy (car : CarModel) (now : ℚ) (orc : Oracle) (s : GameState) :
    (spawnPhase car now orc s).energy = s.energy := by
  simp only [spawnPhase]; split_ifs <;> rfl

theorem spawnPhase_flashTimer (car : CarModel) (now : ℚ) (orc : Oracle) (s : GameState) :
    (spawnPhase car now orc s).flashTimer = s.flashTimer := by
  simp only [spawnPhase]; split_ifs <;> rfl

theorem spawnPhase_isCrashing (car : CarModel) (now : ℚ) (orc : Oracle) (s : GameState) :
    (spawnPhase car now orc s).isCrashing = s.isCrashing := by
  simp only [spawnPhase]; split_ifs <;> rfl

theorem spawnPhase_crashTime (car : CarModel) (now : ℚ) (orc : Oracle) (s : GameState) :
    (spawnPhase car now orc s).crashTime = s.crashTime := by
  simp only [spawnPhase]; split_ifs <;> rfl

theorem spawnPhase_gameOverReason (car : CarModel) (now : ℚ) (orc : Oracle) (s : GameState) :
    (spawnPhase car now orc s).gameOverReason = s.gameOverReason := by
  simp only [spawnPhase]; split_ifs <;> rfl

theorem collideStep_playerX (g : Bool) (now : ℚ) (s : GameState) (e : Entity) :
    (collideStep g now s e).1.playerX = s.playerX := by
  simp only [collideStep]; split_ifs <;> rfl

theorem collideStep_speed (g : Bool) (now : ℚ) (s : GameState) (e : Entity) :
    (collideStep g now s e).1.speed = s.speed := by
  simp only [collideStep]; split_ifs <;> rfl

theorem collideStep_flashTimer (g : Bool) (now : ℚ) (s : GameState) (e : Entity) :
    (collideStep g now s e).1.flashTimer = s.flashTimer := by
  simp only [collideStep]; split_ifs <;> rfl

theorem collideStep_gameOverReason (g : Bool) (now : ℚ) (s : GameState) (e : Entity) :
    (collideStep g now s e).1.gameOverReason = s.gameOverReason := by
  simp only [collideStep]; split_ifs <;> rfl

theorem collideStep_energy_le (g : Bool) (now : ℚ) (s : GameState) (e : Entity)
    (h : s.energy ≤ 100) : (collideStep g now s e).1.energy ≤ 100 := by
  simp only [collideStep]
  split_ifs
  all_goals first
    | exact h
    | (show min 100 (s.energy + 25) ≤ 100
       exact min_le_left _ _)

theorem collideStep_crashFrame (g : Bool) (now : ℚ) (s : GameState) (e : Entity)
    (h : s.isCrashing = false ∨ s.crashTime = now) :
    (collideStep g now s e).1.isCrashing = false ∨ (collideStep g now s e).1.crashTime = now := by
  simp only [collideStep]
  split_ifs
  all_goals first
    | exact h
    | (right; rfl)

theorem collideStep_flashPos (g : Bool) (now : ℚ) (s : GameState) (e : Entity)
    (hf : 0 < s.flashTimer) : (collideStep g now s e).1.isCrashing = s.isCrashing := by
  simp only [collideStep]
  split_ifs
  all_goals first
    | rfl
    | (rename_i hgate hdir
       exact absurd hgate.2.2 (by omega))

theorem collideList_playerX (g : Bool) (now : ℚ) (l : List Entity) :
    ∀ s : GameState, (collideList g now s l).1.playerX = s.playerX := by
  induction l with
  | nil => intro s; rfl
  | cons e rest ih =>
      intro s
      simp only [collideList]
      rw [ih, collideStep_playerX]

theorem collideList_speed (g : Bool) (now : ℚ) (l : List Entity) :
    ∀ s : GameState, (collideList g now s l).1.speed = s.speed := by
  induction l with
  | nil => intro s; rfl
  | cons e rest ih =>
      intro s
      simp only [collideList]
      rw [ih, collideStep_speed]

theorem collideList_flashTimer (g : Bool) (now : ℚ) (l : List Entity) :
    ∀ s : GameState, (collideList g now s l).1.flashTimer = s.flashTimer := by
  induction l with
  | nil => intro s; rfl
  | cons e rest ih =>
      intro s
      simp only [collideList]
      rw [ih, collideStep_flashTimer]

theorem collideList_gameOverReason (g : Bool) (now : ℚ) (l : List Entity) :
    ∀ s : GameState, (collideList g now s l).1.gameOverReason = s.gameOverReason := by
  induction l with
  | nil => intro s; rfl
  | cons e rest ih =>
      intro s
      simp only [collideList]
      rw [ih, collideStep_gameOverReason]

theorem collideList_energy_le (g : Bool) (now : ℚ) (l : List Entity) :
    ∀ s : GameState, s.energy ≤ 100 → (collideList g now s l).1.energy ≤ 100 := by
  induction l with
  | nil => intro s h; exact h
  | cons e rest ih =>
      intro s h
      simp only [collideList]
      exact ih _ (collideStep_energy_le g now s e h)

theorem collideList_crashFrame (g : Bool) (now : ℚ) (l : List Entity) :
    ∀ s : GameState, s.isCrashing = false ∨ s.crashTime = now →
      (collideList g now s l).1.isCrashing = false ∨ (collideList g now s l).1.crashTime = now := by
  induction l with
  | nil => intro s h; exact h
  | cons e rest ih =>
      intro s h
      simp only [collideList]
      exact ih _ (collideStep_crashFrame g now s e h)

theorem collideList_flashPos (g : Bool) (now : ℚ) (l : List Entity) :
    ∀ s : GameState, 0 < s.flashTimer →
      (collideList g now s l).1.isCrashing = s.isCrashing := by
  induction l with
  | nil => intro s _; rfl
  | cons e rest ih =>
      intro s hf
      simp only [collideList]
      have hf2 : 0 < (collideStep g now s e).1.flashTimer := by
        rw [collideStep_flashTimer]; exact hf
      rw [ih _ hf2, collideStep_flashPos g now s e hf]

theorem collidePhase_playerX (g : Bool) (now : ℚ) (s : GameState) :
    (collidePhase g now s).playerX = s.playerX := by
  simp only [collidePhase]
  exact collideList_playerX g now s.entities s

theorem collidePhase_speed (g : Bool) (now : ℚ) (s : GameState) :
    (collidePhase g now s).speed = s.speed := by
  simp only [collidePhase]
  exact collideList_speed g now s.entities s

theorem collidePhase_flashTimer (g : Bool) (now : ℚ) (s : GameState) :
    (collidePhase g now s).flashTimer = s.flashTimer := by
  simp only [collidePhase]
  exact collideList_flashTimer g now s.entities s

theorem collidePhase_gameOverReason (g : Bool) (now : ℚ) (s : GameState) :
    (collidePhase g now s).gameOverReason = s.gameOverReason := by
  simp only [collidePhase]
  exact collideList_gameOverReason g now s.entities s

theorem collidePhase_energy_le (g : Bool) (now : ℚ) (s : GameState)
    (h : s.energy ≤ 100) : (collidePhase g now s).energy ≤ 100 := by
  simp only [collidePhase]
  exact collideList_energy_le g now s.entities s h

theorem collidePhase_crashFrame (g : Bool) (now : ℚ) (s : GameState)
    (h : s.isCrashing = false ∨ s.crashTime = now) :
    (collidePhase g now s).isCrashing = false ∨ (collidePhase g now s).crashTime = now := by
  simp only [collidePhase]
  exact collideList_crashFrame g now s.entities s h

theorem collidePhase_flashPos (g : Bool) (now : ℚ) (s : GameState)
    (hf : 0 < s.flashTimer) : (collidePhase g now s).isCrashing = s.isCrashing := by
  simp only [collidePhase]
  exact collideList_flashPos g now s.entities s hf

theorem projHitList_playerX (l : List Entity) :
    ∀ (s : GameState) (p : Entity), (projHitList s p l).1.playerX = s.playerX := by
  induction l with
  | nil => intro s p; rfl
  | cons ent rest ih =>
      intro s p
      simp only [projHitList]
      split_ifs <;> rw [ih]

theorem projHitList_speed (l : List Entity) :
    ∀ (s : GameState) (p : Entity), (projHitList s p l).1.speed = s.speed := by
  induction l with
  | nil => intro s p; rfl
  | cons ent rest ih =>
      intro s p
      simp only [projHitList]
      split_ifs <;> rw [ih]

theorem projHitList_energy (l : List Entity) :
    ∀ (s : GameState) (p : Entity), (projHitList s p l).1.energy = s.energy := by
  induction l with
  | nil => intro s p; rfl
  | cons ent rest ih =>
      intro s p
      simp only [projHitList]
      split_ifs <;> rw [ih]

theorem projHitList_flashTimer (l : List Entity) :
    ∀ (s : GameState) (p : Entity), (projHitList s p l).1.flashTimer = s.flashTimer := by
  induction l with
  | nil => intro s p; rfl
  | cons ent rest ih =>
      intro s p
      simp only [projHitList]
      split_ifs <;> rw [ih]

theorem projHitList_isCrashing (l : List Entity) :
    ∀ (s : GameState) (p : Entity), (projHitList s p l).1.isCrashing = s.isCrashing := by
  induction l with
  | nil => intro s p; rfl
  | cons ent rest ih =>
      intro s p
      simp only [projHitList]
      split_ifs <;> rw [ih]

theorem projHitList_crashTime (l : List Entity) :
    ∀ (s : GameState) (p : Entity), (projHitList s p l).1.crashTime = s.crashTime := by
  induction l with
  | nil => intro s p; rfl
  | cons ent rest ih =>
      intro s p
      simp only [projHitList]
      split_ifs <;> rw [ih]

theorem projHitList_gameOverReason (l : List Entity) :
    ∀ (s : GameState) (p : Entity), (projHitList s p l).1.gameOverReason = s.gameOverReason := by
  induction l with
  | nil => intro s p; rfl
  | cons ent rest ih =>
      intro s p
      simp only [projHitList]
      split_ifs <;> rw [ih]

theorem projList_playerX (l : List Entity) :
    ∀ s : GameState, (projList s l).1.playerX = s.playerX := by
  induction l with
  | nil => intro s; rfl
  | cons p rest ih =>
      intro s
      simp only [projList]
      split_ifs
      · rw [ih]
      · rw [ih]; exact projHitList_playerX _ _ _

theorem projList_speed (l : List Entity) :
    ∀ s : GameState, (projList s l).1.speed = s.speed := by
  induction l with
  | nil => intro s; rfl
  | cons p rest ih =>
      intro s
      simp only [projList]
      split_ifs
      · rw [ih]
      · rw [ih]; exact projHitList_speed _ _ _

theorem projList_energy (l : List Entity) :
    ∀ s : GameState, (projList s l).1.energy = s.energy := by
  induction l with
  | nil => intro s; rfl
  | cons p rest ih =>
      intro s
      simp only [projList]
      split_ifs
      · rw [ih]
      · rw [ih]; exact projHitList_energy _ _ _

theorem projList_flashTimer (l : List Entity) :
    ∀ s : GameState, (projList s l).1.flashTimer = s.flashTimer := by
  induction l with
  | nil => intro s; rfl
  | cons p rest ih =>
      intro s
      simp only [projList]
      split_ifs
      · rw [ih]
      · rw [ih]; exact projHitList_flashTimer _ _ _

theorem projList_isCrashing (l : List Entity) :
    ∀ s : GameState, (projList s l).1.isCrashing = s.isCrashing := by
  induction l with
  | nil => intro s; rfl
  | cons p rest ih =>
      intro s
      simp only [projList]
      split_ifs
      · rw [ih]
      · rw [ih]; exact projHitList_isCrashing _ _ _

theorem projList_crashTime (l : List Entity) :
    ∀ s : GameState, (projList s l).1.crashTime = s.crashTime := by
  induction l with
  | nil => intro s; rfl
  | cons p rest ih =>
      intro s
      simp only [projList]
      split_ifs
      · rw [ih]
      · rw [ih]; exact projHitList_crashTime _ _ _

theorem projList_gameOverReason (l : List Entity) :
    ∀ s : GameState, (projList s l).1.gameOverReason = s.gameOverReason := by
  induction l with
  | nil => intro s; rfl
  | cons p rest ih =>
      intro s
      simp only [projList]
      split_ifs
      · rw [ih]
      · rw [ih]; exact projHitList_gameOverReason _ _ _

theorem projectilePhase_playerX (s : GameState) :
    (projectilePhase s).playerX = s.playerX := by
  simp only [projectilePhase]
  exact projList_playerX s.projectiles s

theorem projectilePhase_speed (s : GameState) :
    (projectilePhase s).speed = s.speed := by
  simp only [projectilePhase]
  exact projList_speed s.projectiles s

theorem projectilePhase_energy (s : GameState) :
    (projectilePhase s).energy = s.energy := by
  simp only [projectilePhase]
  exact projList_energy s.projectiles s

theorem projectilePhase_flashTimer (s : GameState) :
    (projectilePhase s).flashTimer = s.flashTimer := by
  simp only [projectilePhase]
  exact projList_flashTimer s.projectiles s

theorem projectilePhase_isCrashing (s : GameState) :
    (projectilePhase s).isCrashing = s.isCrashing := by
  simp only [projectilePhase]
  exact projList_isCrashing s.projectiles s

theorem projectilePhase_crashTime (s : GameState) :
    (projectilePhase s).crashTime = s.crashTime := by
  simp only [projectilePhase]
  exact projList_crashTime s.projectiles s

theorem projectilePhase_gameOverReason (s : GameState) :
    (projectilePhase s).gameOverReason = s.gameOverReason := by
  simp only [projectilePhase]
  exact projList_gameOverReason s.projectiles s

theorem resolvePhase_noop (now : ℚ) (s : GameState)
    (h : s.isCrashing = false ∨ s.crashTime = now) :
    resolvePhase now s = (s, none) := by
  rcases h with h | h
  · simp [resolvePhase, h]
  · simp only [resolvePhase]
    split_ifs with h1 h2 h3
    all_goals first
      | rfl
      | (exfalso; rw [h] at h2; linarith [h2.2])

theorem resolvePhase_playerX (now : ℚ) (s : GameState) :
    (resolvePhase now s).1.playerX = s.playerX ∨ (resolvePhase now s).1.playerX = 0 := by
  simp only [resolvePhase]
  split_ifs
  all_goals first
    | (left; rfl)
    | (right; rfl)

theorem resolvePhase_speed (now : ℚ) (s : GameState) :
    (resolvePhase now s).1.speed = s.speed ∨ (resolvePhase now s).1.speed = 0 := by
  simp only [resolvePhase]
  split_ifs
  all_goals first
    | (left; rfl)
    | (right; rfl)

theorem resolvePhase_energy_le (now : ℚ) (s : GameState)
    (h : s.energy ≤ 100) : (resolvePhase now s).1.energy ≤ 100 := by
  simp only [resolvePhase]
  split_ifs
  all_goals first
    | exact h
    | (show (25 : ℚ) ≤ 100
       norm_num)
    | (show max 0 (s.energy - 10) ≤ 100
       exact max_le (by norm_num) (by linarith))

theorem resolvePhase_isPlaying_of_some (now : ℚ) (s : GameState) (ev : GameOverStats)
    (h : (resolvePhase now s).2 = some ev) : (resolvePhase now s).1.isPlaying = false := by
  simp only [resolvePhase] at h ⊢
  split_ifs at h ⊢
  all_goals rfl

theorem resolvePhase_reason_of_some (now : ℚ) (s : GameState) (ev : GameOverStats)
    (h : (resolvePhase now s).2 = some ev) : ev.reason = s.gameOverReason := by
  simp only [resolvePhase] at h
  split_ifs at h
  all_goals rw [← Option.some.inj h]

theorem update_dead (car : CarModel) (rs : Bool) (now dt : ℚ) (orc : Oracle) (s : GameState)
    (hp : s.isPlaying = false) : update car rs now dt orc s = (s, none) := by
  simp only [update]
  rw [if_pos hp]

theorem update_gameOver_isPlaying (car : CarModel) (rs : Bool) (now dt : ℚ) (orc : Oracle)
    (s : GameState) (ev : GameOverStats) (h : (update car rs now dt orc s).2 = some ev) :
    (update car rs now dt orc s).1.isPlaying = false := by
  by_cases hp : s.isPlaying = false
  · rw [update_dead car rs now dt orc s hp] at h
    simp at h
  · simp only [update, if_neg hp] at h ⊢
    exact resolvePhase_isPlaying_of_some _ _ _ h

theorem renderPhase_flashTimer_pos (s : GameState) (h : 0 < s.flashTimer) :
    (renderPhase s).flashTimer = s.flashTimer - 1 := by
  simp only [renderPhase]
  split_ifs <;> dsimp only at * <;> omega

theorem crashFrame_mono (now : ℚ) {a b : GameState}
    (hic : b.isCrashing = a.isCrashing) (hct : b.crashTime = a.crashTime)
    (h : a.isCrashing = false ∨ a.crashTime = now) :
    b.isCrashing = false ∨ b.crashTime = now :=
  h.imp (fun h2 => hic.trans h2) (fun h2 => hct.trans h2)

theorem shootPhase_ice (car : CarModel) (now : ℚ) (s : GameState)
    (h : car.type ≠ EngineType.EV) : shootPhase car now s = s := by
  simp only [shootPhase]
  rw [if_neg]
  intro h2
  exact h h2.1

theorem spawnPhase_noSpawn (car : CarModel) (now : ℚ) (orc : Oracle) (s : GameState)
    (h : ¬(now - s.startTime > 2000)) : spawnPhase car now orc s = s := by
  simp only [spawnPhase]
  rw [if_neg]
  intro h2
  exact h h2.2.2.2

theorem collidePhase_nilEntities (g : Bool) (now : ℚ) (s : GameState)
    (h : s.entities = []) : collidePhase g now s = s := by
  simp only [collidePhase, h, collideList]
  rw [← h]

theorem projectilePhase_nilProjectiles (s : GameState)
    (h : s.projectiles = []) : projectilePhase s = s := by
  simp only [projectilePhase, h, projList]
  rw [← h]

theorem steerPhase_playerX_bound (car : CarModel) (dt : ℚ) (s : GameState)
    (hc : s.isCrashing = false) (hx : |s.playerX| ≤ 3 / 4) (hdt : 0 ≤ dt)
    (hh : 0 ≤ car.stats.handling) (hs : 0 ≤ s.speed) :
    |(steerPhase car dt s).playerX| ≤ 3 / 4 := by
  obtain ⟨hx1, hx2⟩ := abs_le.mp hx
  have hH : 0 ≤ car.stats.handling / 25000 * (1 + s.speed / 500) * dt := by
    have h1 : 0 ≤ car.stats.handling / 25000 := div_nonneg hh (by norm_num)
    have h2 : 0 ≤ s.speed / 500 := div_nonneg hs (by norm_num)
    have h3 : 0 ≤ 1 + s.speed / 500 := by linarith
    exact mul_nonneg (mul_nonneg h1 h3) hdt
  have hmax := le_max_left (-(3 : ℚ) / 4)
    (s.playerX - car.stats.handling / 25000 * (1 + s.speed / 500) * dt)
  simp only [steerPhase]
  rw [if_neg (by simp [hc])]
  rw [abs_le]
  refine ⟨?_, ?_⟩ <;> split_ifs <;> dsimp only
  · exact le_inf (by norm_num) (by linarith)
  · exact le_inf (by norm_num) (by linarith)
  · exact le_trans (by norm_num) le_sup_left
  · exact hx1
  · exact inf_le_left
  · exact inf_le_left
  · exact sup_le (by norm_num) (by linarith)
  · exact hx2

theorem speedPhase_rs6_bound (rs : Bool) (dt : ℚ) (s : GameState)
    (h0 : 0 ≤ s.speed) (h1 : s.speed ≤ 826 / 3) (hdt0 : 0 ≤ dt) (hdt : dt ≤ 50) :
    0 ≤ (speedPhase rs6 rs dt s).speed ∧ (speedPhase rs6 rs dt s).speed ≤ 826 / 3 := by
  simp only [speedPhase, rs6]
  constructor <;> split_ifs <;> dsimp only <;> linarith

theorem preResolve_playerX (car : CarModel) (rs : Bool) (now dt : ℚ) (orc : Oracle)
    (s : GameState) :
    (preResolve car rs now dt orc s).playerX = (steerPhase car dt s).playerX := by
  simp only [preResolve, projectilePhase_playerX, collidePhase_playerX, spawnPhase_playerX,
    shootPhase_playerX, resourcePhase_playerX, speedPhase_playerX, flashDecPhase_playerX]

theorem preResolve_speed (car : CarModel) (rs : Bool) (now dt : ℚ) (orc : Oracle)
    (s : GameState) :
    (preResolve car rs now dt orc s).speed =
      (speedPhase car rs dt (flashDecPhase (steerPhase car dt s))).speed := by
  simp only [preResolve, projectilePhase_speed, collidePhase_speed, spawnPhase_speed,
    shootPhase_speed, resourcePhase_speed]

theorem preResolve_flashTimer (car : CarModel) (rs : Bool) (now dt : ℚ) (orc : Oracle)
    (s : GameState) :
    (preResolve car rs now dt orc s).flashTimer =
      (flashDecPhase (steerPhase car dt s)).flashTimer := by
  simp only [preResolve, projectilePhase_flashTimer, collidePhase_flashTimer,
    spawnPhase_flashTimer, shootPhase_flashTimer, resourcePhase_flashTimer,
    speedPhase_flashTimer]

theorem preResolve_energy_le (car : CarModel) (rs : Bool) (now dt : ℚ) (orc : Oracle)
    (s : GameState) (h : s.energy ≤ 100) (hdt : 0 ≤ dt) :
    (preResolve car rs now dt orc s).energy ≤ 100 := by
  simp only [preResolve, projectilePhase_energy]
  apply collidePhase_energy_le
  simp only [spawnPhase_energy]
  apply shootPhase_energy_le
  apply resourcePhase_energy_le
  · simp only [speedPhase_energy, flashDecPhase_energy, steerPhase_energy]
    exact h
  · exact hdt

theorem preResolve_crashFrame (car : CarModel) (rs : Bool) (now dt : ℚ) (orc : Oracle)
    (s : GameState) (hc : s.isCrashing = false) :
    (preResolve car rs now dt orc s).isCrashing = false ∨
      (preResolve car rs now dt orc s).crashTime = now := by
  have h3 : (speedPhase car rs dt (flashDecPhase (steerPhase car dt s))).isCrashing = false := by
    rw [speedPhase_isCrashing, flashDecPhase_isCrashing, steerPhase_isCrashing]
    exact hc
  have h4 := resourcePhase_crashFrame car now dt
    (speedPhase car rs dt (flashDecPhase (steerPhase car dt s))) (Or.inl h3)
  have h5 := crashFrame_mono now (shootPhase_isCrashing car now _)
    (shootPhase_crashTime car now _) h4
  have h6 := crashFrame_mono now (spawnPhase_isCrashing car now orc _)
    (spawnPhase_crashTime car now orc _) h5
  have h8 := collidePhase_crashFrame
    (decide (now -
      (spawnPhase car now orc (shootPhase car now (resourcePhase car now dt
        (speedPhase car rs dt (flashDecPhase (steerPhase car dt s)))))).startTime < 3000)) now
    { spawnPhase car now orc (shootPhase car now (resourcePhase car now dt
        (speedPhase car rs dt (flashDecPhase (steerPhase car dt s))))) with
      entities := (spawnPhase car now orc (shootPhase car now (resourcePhase car now dt
        (speedPhase car rs dt (flashDecPhase (steerPhase car dt s)))))).entities.map
          (moveEntity (spawnPhase car now orc (shootPhase car now (resourcePhase car now dt
            (speedPhase car rs dt (flashDecPhase (steerPhase car dt s)))))).speed dt)
      projectiles := (spawnPhase car now orc (shootPhase car now (resourcePhase car now dt
        (speedPhase car rs dt (flashDecPhase (steerPhase car dt s)))))).projectiles.map
          (moveProjectile dt) } h6
  have h9 := crashFrame_mono now (projectilePhase_isCrashing _) (projectilePhase_crashTime _) h8
  exact h9

theorem updRun_dead (car : CarModel) (rs : Bool) (l : List (ℚ × ℚ × Oracle)) :
    ∀ s : GameState, s.isPlaying = false → (updRun car rs l s).2 = 0 := by
  induction l with
  | nil => intro s _; rfl
  | cons t rest ih =>
      intro s hp
      simp only [updRun]
      rw [update_dead car rs t.1 t.2.1 t.2.2 s hp]
      simp [ih s hp]

/-- C1: with one life left, a hazard-collision crash whose recovery duration has
elapsed (speed below 5, more than 1000 ms since crash onset) does NOT transition
to TERMINAL: the `lives > 0` branch of the crash resolution respawns the player,
lives drop to 0, `isPlaying` stays true and no `onGameOver` payload is emitted.
Only the NEXT crash, resolved with `lives = 0`, goes terminal (then with
`reason = CRASH`, the initial value of `gameOverReason`).  This evaluation
documents the divergence between the code and the claim (and the repository's
own unit test, which expects game over at the lives 1 → 0 crash). -/
theorem lives_one_crash_respawns :
    ((update rs6 true 2000 16 noSpawnOracle c1State).1.isPlaying = true ∧
     (update rs6 true 2000 16 noSpawnOracle c1State).1.lives = 0 ∧
     (update rs6 true 2000 16 noSpawnOracle c1State).1.isCrashing = false ∧
     (update rs6 true 2000 16 noSpawnOracle c1State).2 = none) ∧
    (update rs6 true 2000 16 noSpawnOracle c1StateZero).2 =
      some { score := 500, distance := 500, killCount := 0, reason := some Reason.CRASH } := by
  constructor
  · norm_num [update, preResolve, steerPhase, flashDecPhase, speedPhase, resourcePhase,
      webDepletion, shootPhase, spawnPhase, moveEntity, moveProjectile, collidePhase,
      collideList, collideStep, checkHit, isPickup, projectilePhase, projList, projHitList,
      resolvePhase, initialState, noSpawnOracle, rs6, PLAYER_Z, noKeys, c1State]
    decide
  · norm_num [update, preResolve, steerPhase, flashDecPhase, speedPhase, resourcePhase,
      webDepletion, shootPhase, spawnPhase, moveEntity, moveProjectile, collidePhase,
      collideList, collideStep, checkHit, isPickup, projectilePhase, projList, projHitList,
      resolvePhase, initialState, noSpawnOracle, rs6, PLAYER_Z, noKeys, c1State, c1StateZero]

/-- C2 counterexample: during the crash-drift phase the lane position is not
clamped: from `playerX = 0.75` with positive drift direction, speed 100 and
`dt = 16`, one tick puts `playerX` at 1.07, outside `[-0.75, 0.75]`. -/
theorem crashDrift_exits_lane_bounds :
    (update rs6 true 0 16 noSpawnOracle c2State).1.playerX > 3 / 4 := by
  norm_num [update, preResolve, steerPhase, flashDecPhase, speedPhase, resourcePhase,
    webDepletion, shootPhase, spawnPhase, moveEntity, moveProjectile, collidePhase,
    collideList, collideStep, checkHit, isPickup, projectilePhase, projList, projHitList,
    resolvePhase, initialState, noSpawnOracle, rs6, PLAYER_Z, noKeys, c2State]

/-- C2 amended: on any tick that starts outside the crash state, the player lane
position stays within `[-0.75, 0.75]` (steering clamps both directions, and a
respawn resets it to 0); the bound can only be left through the unclamped
crash-drift branch, as the counterexample shows. -/
theorem playerX_bounded_without_crash (car : CarModel) (rs : Bool) (now dt : ℚ)
    (orc : Oracle) (s : GameState) (hc : s.isCrashing = false) (hx : |s.playerX| ≤ 3 / 4)
    (hdt : 0 ≤ dt) (hh : 0 ≤ car.stats.handling) (hs : 0 ≤ s.speed) :
    |(update car rs now dt orc s).1.playerX| ≤ 3 / 4 := by
  by_cases hp : s.isPlaying = false
  · rw [update_dead car rs now dt orc s hp]
    exact hx
  · simp only [update, if_neg hp]
    rcases resolvePhase_playerX now (preResolve car rs now dt orc s) with h | h <;> rw [h]
    · rw [preResolve_playerX]
      exact steerPhase_playerX_bound car dt s hc hx hdt hh hs
    · norm_num

theorem playerX_bounded_without_crash_witness :
    |(update rs6 true 0 16 noSpawnOracle (initialState 0)).1.playerX| ≤ 3 / 4 :=
  playerX_bounded_without_crash rs6 true 0 16 noSpawnOracle (initialState 0)
    rfl (by norm_num [initialState]) (by norm_num) (by norm_num [rs6])
    (by norm_num [initialState])

/-- C3 counterexample: the depletion `energy -= speed/500000*dt` is not clamped
at zero: from energy 0.01 at speed 200 with `dt = 50`, the exhaustion tick
leaves energy negative (and starts the exhaustion crash). -/
theorem energy_negative_on_exhaustion :
    (update rs6 true 5000 50 noSpawnOracle c3State).1.energy < 0 ∧
    (update rs6 true 5000 50 noSpawnOracle c3State).1.isCrashing = true := by
  norm_num [update, preResolve, steerPhase, flashDecPhase, speedPhase, resourcePhase,
    webDepletion, shootPhase, spawnPhase, moveEntity, moveProjectile, collidePhase,
    collideList, collideStep, checkHit, isPickup, projectilePhase, projList, projHitList,
    resolvePhase, initialState, noSpawnOracle, rs6, PLAYER_Z, noKeys, c3State]

/-- C3 amended: the upper half of the invariant holds: after every tick with
`dt ≥ 0`, energy never exceeds 100 (pickup collection clamps at 100, the
emergency refill sets 25, the collision penalty clamps at 0 from below values
already at most 100); the lower bound 0 is violated on the exhaustion tick, as
the counterexample shows. -/
theorem energy_upper_bound_inv (car : CarModel) (rs : Bool) (now dt : ℚ) (orc : Oracle)
    (s : GameState) (h : s.energy ≤ 100) (hdt : 0 ≤ dt) :
    (update car rs now dt orc s).1.energy ≤ 100 := by
  by_cases hp : s.isPlaying = false
  · rw [update_dead car rs now dt orc s hp]
    exact h
  · simp only [update, if_neg hp]
    exact resolvePhase_energy_le now _ (preResolve_energy_le car rs now dt orc s h hdt)

theorem energy_upper_bound_inv_witness :
    (update rs6 true 0 16 noSpawnOracle (initialState 0)).1.energy ≤ 100 :=
  energy_upper_bound_inv rs6 true 0 16 noSpawnOracle (initialState 0)
    (by norm_num [initialState]) (by norm_num)

/-- C4 counterexample: in the web engine (`GameCanvas.tsx`) the energy drain has
no distance-based multiplier: two states identical except for `distance` (0
versus 10000) lose exactly the same energy on the same tick (and both do lose
energy), so energy does not drain faster at greater distance there.  The
distance multiplier exists only in the mobile engine. -/
theorem web_energy_drain_ignores_distance :
    c4Near.distance < c4Far.distance ∧ c4Near.speed = c4Far.speed ∧
    c4Near.energy = c4Far.energy ∧
    (update rs6 true 5000 50 noSpawnOracle c4Near).1.energy =
      (update rs6 true 5000 50 noSpawnOracle c4Far).1.energy ∧
    (update rs6 true 5000 50 noSpawnOracle c4Near).1.energy < c4Near.energy := by
  norm_num [update, preResolve, steerPhase, flashDecPhase, speedPhase, resourcePhase,
    webDepletion, shootPhase, spawnPhase, moveEntity, moveProjectile, collidePhase,
    collideList, collideStep, checkHit, isPickup, projectilePhase, projList, projHitList,
    resolvePhase, initialState, noSpawnOracle, rs6, PLAYER_Z, noKeys, c4Near, c4Far]

/-- C4 amended: the mobile engine's depletion
`(speed/300000)·dt·(1 + distance/20000)` is strictly increasing in distance for
positive speed and dt, while the web engine's resource phase always subtracts
the distance-free amount `(speed/500000)·dt` when moving and not crashing. -/
theorem depletion_distance_scaling :
    (∀ speed dt d1 d2 : ℚ, 0 < speed → 0 < dt → d1 < d2 →
        mobileDepletion speed dt d1 < mobileDepletion speed dt d2) ∧
    (∀ (car : CarModel) (now dt : ℚ) (s : GameState), s.isCrashing = false → s.speed > 5 →
        (resourcePhase car now dt s).energy = s.energy - webDepletion s.speed dt) := by
  constructor
  · intro speed dt d1 d2 hs hdt h12
    unfold mobileDepletion
    have hpos : 0 < speed / 300000 * dt := by positivity
    have h2 : (1 : ℚ) + d1 / 20000 < 1 + d2 / 20000 := by linarith
    exact mul_lt_mul_of_pos_left h2 hpos
  · intro car now dt s hc hsp
    simp only [resourcePhase]
    rw [if_pos ⟨hc, hsp⟩]
    split_ifs <;> rfl

theorem depletion_distance_scaling_witness :
    mobileDepletion 100 50 0 < mobileDepletion 100 50 10000 ∧
    (resourcePhase rs6 5000 50 c4Near).energy = c4Near.energy - webDepletion c4Near.speed 50 :=
  ⟨depletion_distance_scaling.1 100 50 0 10000 (by norm_num) (by norm_num) (by norm_num),
   depletion_distance_scaling.2 rs6 5000 50 c4Near (by norm_num [c4Near, initialState])
     (by norm_num [c4Near, initialState])⟩

/-- C7: for a non-pickup entity processed by the player-collision check, a crash
transition begins (the crash flag flips from false to true at that entity's
step) exactly when the entity is active, its depth distance to the player
reference depth is under 120, its lane distance is under the hazard threshold
0.45, and the player is outside the grace period, not already crashing, and not
invulnerable (`flashTimer ≤ 0`). -/
theorem hazard_crash_iff_thresholds (g : Bool) (now : ℚ) (s : GameState) (e : Entity)
    (hnp : ¬ isPickup e.type) :
    ((collideStep g now s e).1.isCrashing = true ∧ s.isCrashing = false) ↔
      (e.active = true ∧ |PLAYER_Z - e.z| < 120 ∧ |s.playerX - e.lane| < 45 / 100 ∧
        g = false ∧ s.isCrashing = false ∧ s.flashTimer ≤ 0) := by
  simp only [collideStep, checkHit]
  split_ifs
  all_goals constructor
  all_goals intro hh
  all_goals simp_all

theorem hazard_crash_iff_thresholds_witness :
    ((collideStep false 0 (initialState 0) wHazard).1.isCrashing = true ∧
      (initialState 0).isCrashing = false) :=
  (hazard_crash_iff_thresholds false 0 (initialState 0) wHazard
      (by simp [isPickup, wHazard])).mpr
    (by norm_num [wHazard, initialState, PLAYER_Z])

/-- C9: the shooting phase appends a projectile only when the car is an EV, the
fire key is held, the player is not crashing, more than 250 ms have passed since
the last shot, and energy exceeds 3; a shot deducts exactly 2 energy, leaving
energy above 1, and the shooting phase never touches the crash flag, so firing
alone can neither zero the energy nor start the exhaustion crash. -/
theorem shot_conditions_and_energy_floor (car : CarModel) (now : ℚ) (s : GameState) :
    ((shootPhase car now s).projectiles ≠ s.projectiles →
      (car.type = EngineType.EV ∧ s.keys.shoot = true ∧ s.isCrashing = false ∧
       now - s.lastShotTime > 250 ∧ s.energy > 3 ∧
       (shootPhase car now s).energy = s.energy - 2 ∧ 1 < (shootPhase car now s).energy)) ∧
    (shootPhase car now s).isCrashing = s.isCrashing := by
  constructor
  · intro hne
    simp only [shootPhase] at hne ⊢
    split_ifs at hne ⊢ with h1 h2
    · exact ⟨h1.1, h1.2.1, h1.2.2, h2.1, h2.2, rfl, by dsimp only; linarith [h2.2]⟩
    · exact absurd rfl hne
    · exact absurd rfl hne
  · exact shootPhase_isCrashing car now s

theorem shot_conditions_and_energy_floor_witness :
    (etronGT.type = EngineType.EV ∧ wShootState.keys.shoot = true ∧
      wShootState.isCrashing = false ∧
      (1000 : ℚ) - wShootState.lastShotTime > 250 ∧ wShootState.energy > 3 ∧
      (shootPhase etronGT 1000 wShootState).energy = wShootState.energy - 2 ∧
      1 < (shootPhase etronGT 1000 wShootState).energy) :=
  (shot_conditions_and_energy_floor etronGT 1000 wShootState).1
    (by norm_num [shootPhase, etronGT, wShootState, initialState, noKeys, PLAYER_Z])

/-- C10: the crash resolution of a recoverable exhaustion crash
(`EMPTY_BATTERY`/`EMPTY_FUEL`, lives remaining) resets `gameOverReason` to null
and refills energy to 25; the player-collision phase never writes
`gameOverReason`; and a terminal resolution emits exactly the stored
`gameOverReason`.  Consequently a fatal collision crash after such a recovery
reports `reason = null`. -/
theorem reason_cleared_on_refill :
    (∀ (now : ℚ) (s : GameState), s.isCrashing = true → s.speed < 5 →
        now - s.crashTime > 1000 → s.lives > 0 →
        (s.gameOverReason = some Reason.EMPTY_BATTERY ∨
          s.gameOverReason = some Reason.EMPTY_FUEL) →
        (resolvePhase now s).1.gameOverReason = none ∧ (resolvePhase now s).1.energy = 25) ∧
    (∀ (g : Bool) (now : ℚ) (s : GameState),
        (collidePhase g now s).gameOverReason = s.gameOverReason) ∧
    (∀ (now : ℚ) (s : GameState) (ev : GameOverStats),
        (resolvePhase now s).2 = some ev → ev.reason = s.gameOverReason) := by
  refine ⟨?_, collidePhase_gameOverReason, resolvePhase_reason_of_some⟩
  intro now s hc hsp ht hl hr
  simp only [resolvePhase]
  rw [if_pos hc, if_pos ⟨hsp, ht⟩, if_pos hl]
  split_ifs
  exact ⟨rfl, rfl⟩

theorem reason_cleared_on_refill_witness :
    (resolvePhase 2000 wRecoverState).1.gameOverReason = none ∧
      (resolvePhase 2000 wRecoverState).1.energy = 25 :=
  reason_cleared_on_refill.1 2000 wRecoverState rfl
    (by norm_num [wRecoverState, initialState])
    (by norm_num [wRecoverState, initialState])
    (by norm_num [wRecoverState, initialState])
    (Or.inr rfl)

/-- C8 counterexample: once TERMINAL has been reached (`isPlaying = false`) the
frame is NOT a no-op on the whole simulation state: the render pass still
decrements a positive invulnerability timer (and overwrites `lastTime`), so a
terminal state with `flashTimer = 5` changes on the next frame. -/
theorem terminal_frame_still_ticks_timers :
    (frame rs6 true 16 noSpawnOracle c8State).1 ≠ c8State ∧
    (frame rs6 true 16 noSpawnOracle c8State).1.flashTimer = c8State.flashTimer - 1 := by
  have hflash : (frame rs6 true 16 noSpawnOracle c8State).1.flashTimer = 4 := by
    norm_num [frame, renderPhase, update, c8State, initialState]
  constructor
  · intro h
    rw [h] at hflash
    norm_num [c8State, initialState] at hflash
  · rw [hflash]
    norm_num [c8State, initialState]

/-- C8 amended: the game-logic tick (`update`) is an exact no-op once
`isPlaying = false` and emits nothing, and over any run `onGameOver` is emitted
at most once (an emission itself forces `isPlaying = false`, after which every
later tick emits nothing); only the frame's render pass still decrements the
flash/shake timers and records `lastTime`, as the counterexample shows. -/
theorem terminal_update_noop_gameOver_once :
    (∀ (car : CarModel) (rs : Bool) (now dt : ℚ) (orc : Oracle) (s : GameState),
        s.isPlaying = false → update car rs now dt orc s = (s, none)) ∧
    (∀ (car : CarModel) (rs : Bool) (ticks : List (ℚ × ℚ × Oracle)) (s : GameState),
        (updRun car rs ticks s).2 ≤ 1) := by
  refine ⟨update_dead, ?_⟩
  intro car rs ticks
  induction ticks with
  | nil => intro s; simp [updRun]
  | cons t rest ih =>
      intro s
      simp only [updRun]
      rcases hev : (update car rs t.1 t.2.1 t.2.2 s).2 with _ | ev
      · simp only [hev, Option.isSome_none, Bool.false_eq_true, if_false]
        simpa using ih (update car rs t.1 t.2.1 t.2.2 s).1
      · have hdead := update_gameOver_isPlaying car rs t.1 t.2.1 t.2.2 s ev hev
        rw [updRun_dead car rs rest (update car rs t.1 t.2.1 t.2.2 s).1 hdead]
        simp

theorem terminal_update_noop_gameOver_once_witness :
    update rs6 true 2000 16 noSpawnOracle c8State = (c8State, none) ∧
    (updRun rs6 true [(2000, 16, noSpawnOracle)] (initialState 0)).2 ≤ 1 :=
  ⟨terminal_update_noop_gameOver_once.1 rs6 true 2000 16 noSpawnOracle c8State rfl,
   terminal_update_noop_gameOver_once.2 rs6 true [(2000, 16, noSpawnOracle)] (initialState 0)⟩

theorem ramp_init : RampOk 0 c5Init := by
  refine ⟨rfl, rfl, rfl, rfl, rfl, rfl, rfl, ?_, ?_⟩
  · norm_num [c5Init, initialState]
  · norm_num [c5Init, initialState]

set_option maxHeartbeats 1600000 in
theorem ramp_step (n : ℕ) (hn : n ≤ 81) (s : GameState) (h : RampOk n s) :
    RampOk (n + 1) (c5Step s) := by
  obtain ⟨hP, hC, hK, hF, hEnt, hPj, hST, hSp, hEn⟩ := h
  have hnQ : (n : ℚ) ≤ 81 := by exact_mod_cast hn
  have hn0 : (0 : ℚ) ≤ (n : ℚ) := Nat.cast_nonneg n
  have hup : s.keys.up = true := by rw [hK]; rfl
  have hleft : s.keys.left = false := by rw [hK]; rfl
  have hright : s.keys.right = false := by rw [hK]; rfl
  have hdown : s.keys.down = false := by rw [hK]; rfl
  have hlt : s.speed < 85 * (16 / 5) := by rw [hSp]; nlinarith
  have hneg : ¬(s.speed + 80 / 1200 * 50 < 0) := by
    rw [hSp]
    exact not_lt.mpr (by positivity)
  have hcCond : ¬(s.isCrashing = true) := by simp [hC]
  have hlCond : ¬(s.keys.left = true) := by simp [hleft]
  have hrCond : ¬(s.keys.right = true) := by simp [hright]
  have hfCond : ¬(s.flashTimer > 0) := by simp [hF]
  have e1 : steerPhase rs6 50 s = s := by
    simp only [steerPhase]
    rw [if_neg hcCond, if_neg hrCond, if_neg hlCond]
  have e2 : flashDecPhase s = s := by
    simp only [flashDecPhase]
    rw [if_neg hfCond]
  set R3 : GameState := { s with
    isBraking := false
    speed := s.speed + 80 / 1200 * 50
    distance := s.distance + (s.speed + 80 / 1200 * 50) / 1000 * 50 * 5 } with hR3
  have e3 : speedPhase rs6 true 50 s = R3 := by
    simp only [speedPhase, rs6]
    split_ifs
    all_goals first
      | rfl
      | (exfalso; simp_all)
      | (exfalso; linarith)
  obtain ⟨E, hE4, hEb⟩ : ∃ E : ℚ,
      resourcePhase rs6 0 50 R3 = { R3 with energy := E } ∧
      100 - ((n : ℚ) + 1) / 10 ≤ E := by
    rcases Nat.eq_zero_or_pos n with rfl | hn1
    · have hsp0 : s.speed = 0 := by rw [hSp]; norm_num
      have hcc : ¬(R3.isCrashing = false ∧ R3.speed > 5) := by
        intro hcond
        have h2 : s.speed + 80 / 1200 * 50 > 5 := hcond.2
        rw [hsp0] at h2
        norm_num at h2
      refine ⟨s.energy, ?_, ?_⟩
      · simp only [resourcePhase]
        rw [if_neg hcc]
      · push_cast
        linarith
    · have hn1Q : (1 : ℚ) ≤ (n : ℚ) := by exact_mod_cast hn1
      have hgt : R3.speed > 5 := by
        show s.speed + 80 / 1200 * 50 > 5
        rw [hSp]
        nlinarith
      have hcc : R3.isCrashing = false ∧ R3.speed > 5 := ⟨hC, hgt⟩
      have hne : ¬(R3.energy - webDepletion R3.speed 50 ≤ 0) := by
        intro hle
        have hle2 : s.energy - webDepletion (s.speed + 80 / 1200 * 50) 50 ≤ 0 := hle
        unfold webDepletion at hle2
        rw [hSp] at hle2
        nlinarith
      refine ⟨s.energy - webDepletion (s.speed + 80 / 1200 * 50) 50, ?_, ?_⟩
      · simp only [resourcePhase]
        rw [if_pos hcc, if_neg hne]
      · unfold webDepletion
        rw [hSp]
        push_cast
        nlinarith
  set R4 : GameState := { R3 with energy := E } with hR4
  have hC4 : R4.isCrashing = false := hC
  have hEnt4 : R4.entities = [] := hEnt
  have hPj4 : R4.projectiles = [] := hPj
  have e5 : shootPhase rs6 0 R4 = R4 := by
    apply shootPhase_ice
    simp [rs6]
  have e6 : spawnPhase rs6 0 noSpawnOracle R4 = R4 := by
    apply spawnPhase_noSpawn
    show ¬((0 : ℚ) - s.startTime > 2000)
    rw [hST]
    norm_num
  have hm1 : R4.entities.map (moveEntity R4.speed 50) = R4.entities := by
    rw [hEnt4]
    rfl
  have hm2 : R4.projectiles.map (moveProjectile 50) = R4.projectiles := by
    rw [hPj4]
    rfl
  have hf1 : R4.entities.filter (fun e => e.active) = R4.entities := by
    rw [hEnt4]
    rfl
  have hf2 : R4.projectiles.filter (fun p => p.active) = R4.projectiles := by
    rw [hPj4]
    rfl
  have e7 : ({ R4 with
      entities := R4.entities.map (moveEntity R4.speed 50)
      projectiles := R4.projectiles.map (moveProjectile 50) } : GameState) = R4 := by
    rw [hm1, hm2]
  have e10 : ({ R4 with
      entities := R4.entities.filter (fun e => e.active)
      projectiles := R4.projectiles.filter (fun p => p.active) } : GameState) = R4 := by
    rw [hf1, hf2]
  unfold c5Step
  simp only [update]
  rw [if_neg (by simp [hP])]
  simp only [preResolve]
  rw [e1, e2, e3, hE4, e5, e6]
  simp only [e7]
  rw [collidePhase_nilEntities _ 0 R4 hEnt4, projectilePhase_nilProjectiles R4 hPj4]
  simp only [e10]
  rw [resolvePhase_noop 0 R4 (Or.inl hC4)]
  refine ⟨hP, hC, hK, hF, hEnt4, hPj4, hST, ?_, ?_⟩
  · push_cast
    show s.speed + 80 / 1200 * 50 = ((n : ℚ) + 1) * (10 / 3)
    rw [hSp]
    ring
  · push_cast
    show 100 - ((n : ℚ) + 1) / 10 ≤ E
    exact hEb

theorem ramp_all (n : ℕ) (hn : n ≤ 82) : RampOk n (c5Step^[n] c5Init) := by
  induction n with
  | zero => exact ramp_init
  | succ m ih =>
      rw [Function.iterate_succ_apply']
      exact ramp_step m (by omega) _ (ih (by omega))

/-- C5 counterexample: holding the throttle from tick 0 in the `speed = 85` car
(target 272) with 50 ms ticks, the 82nd tick puts the speed at 820/3 ≈ 273.33,
strictly above 272: the accelerate branch adds `ACCEL·dt` without clamping to
the target, so the approach overshoots. -/
theorem throttle_speed_exceeds_272 : (c5Step^[82] c5Init).speed > 272 := by
  have h := (ramp_all 82 le_rfl).2.2.2.2.2.2.2.1
  rw [h]
  norm_num

/-- C5 amended: with the `speed = 85, accel = 80` car, the speed after any tick
with `0 ≤ dt ≤ 50` stays within `[0, 826/3]`, where
`826/3 = 272 + (80/1200)·50` is the target plus one maximal acceleration step;
the speed can transiently exceed the target 272 (see the counterexample) but
never this bound, and a tick above the target coasts back down. -/
theorem speed_bounds_inv_rs6 (rs : Bool) (now dt : ℚ) (orc : Oracle) (s : GameState)
    (h0 : 0 ≤ s.speed) (h1 : s.speed ≤ 826 / 3) (hdt0 : 0 ≤ dt) (hdt : dt ≤ 50) :
    0 ≤ (update rs6 rs now dt orc s).1.speed ∧
      (update rs6 rs now dt orc s).1.speed ≤ 826 / 3 := by
  by_cases hp : s.isPlaying = false
  · rw [update_dead rs6 rs now dt orc s hp]
    exact ⟨h0, h1⟩
  · simp only [update, if_neg hp]
    have hpre : 0 ≤ (preResolve rs6 rs now dt orc s).speed ∧
        (preResolve rs6 rs now dt orc s).speed ≤ 826 / 3 := by
      rw [preResolve_speed]
      apply speedPhase_rs6_bound rs dt _ ?_ ?_ hdt0 hdt
      · rw [flashDecPhase_speed, steerPhase_speed]
        exact h0
      · rw [flashDecPhase_speed, steerPhase_speed]
        exact h1
    rcases resolvePhase_speed now (preResolve rs6 rs now dt orc s) with h | h <;> rw [h]
    · exact hpre
    · norm_num

theorem speed_bounds_inv_rs6_witness :
    0 ≤ (update rs6 true 0 16 noSpawnOracle (initialState 0)).1.speed ∧
      (update rs6 true 0 16 noSpawnOracle (initialState 0)).1.speed ≤ 826 / 3 :=
  speed_bounds_inv_rs6 true 0 16 noSpawnOracle (initialState 0)
    (by norm_num [initialState]) (by norm_num [initialState]) (by norm_num) (by norm_num)

/-- C6 counterexample: a positive invulnerability countdown loses TWO per
rendered frame, not one: `update` decrements it once and the render pass
decrements it again, so a playing state with `flashTimer = 10` ends the frame
at 8, not 9. -/
theorem flashTimer_double_decrement :
    (frame rs6 true 16 noSpawnOracle c6State).1.flashTimer ≠ c6State.flashTimer - 1 ∧
    (frame rs6 true 16 noSpawnOracle c6State).1.flashTimer = c6State.flashTimer - 2 := by
  have h8 : (frame rs6 true 16 noSpawnOracle c6State).1.flashTimer = 8 := by
    norm_num [frame, renderPhase, update, preResolve, steerPhase, flashDecPhase, speedPhase, resourcePhase,
      webDepletion, shootPhase, spawnPhase, moveEntity, moveProjectile, collidePhase,
      collideList, collideStep, checkHit, isPickup, projectilePhase, projList, projHitList,
      resolvePhase, initialState, noSpawnOracle, rs6, PLAYER_Z, noKeys, c6State]
  constructor
  · rw [h8]
    norm_num [c6State, initialState]
  · rw [h8]
    norm_num [c6State, initialState]

/-- C6 amended: over one frame of a playing, non-crashing state with
`flashTimer ≥ 2`, the countdown drops by exactly two (once in the game-logic
tick, once in the render pass), and while the countdown is positive the
player-collision phase never begins a crash (the crash flag is unchanged). -/
theorem flashTimer_decrement_and_blocks (car : CarModel) (rs : Bool) (t : ℚ) (orc : Oracle)
    (s : GameState) (hp : s.isPlaying = true) (hc : s.isCrashing = false)
    (hf : 2 ≤ s.flashTimer) :
    (frame car rs t orc s).1.flashTimer = s.flashTimer - 2 ∧
    (∀ (g : Bool) (now : ℚ) (s2 : GameState), 0 < s2.flashTimer →
        (collidePhase g now s2).isCrashing = s2.isCrashing) := by
  refine ⟨?_, fun g now s2 h2 => collidePhase_flashPos g now s2 h2⟩
  simp only [frame]
  have hp' : ¬({ s with lastTime := t } : GameState).isPlaying = false := by
    show ¬(s.isPlaying = false)
    rw [hp]
    simp
  simp only [update, if_neg hp']
  have hcf := preResolve_crashFrame car rs t (min (t - s.lastTime) 50) orc
    { s with lastTime := t } (show s.isCrashing = false from hc)
  rw [resolvePhase_noop t _ hcf]
  have hX : (preResolve car rs t (min (t - s.lastTime) 50) orc
      { s with lastTime := t }).flashTimer = s.flashTimer - 1 := by
    rw [preResolve_flashTimer]
    rw [flashDecPhase_pos _ (by rw [steerPhase_flashTimer]; show 0 < s.flashTimer; omega)]
    rw [steerPhase_flashTimer]
  dsimp only
  rw [renderPhase_flashTimer_pos _ (by rw [hX]; omega), hX]
  omega

theorem flashTimer_decrement_and_blocks_witness :
    (frame rs6 true 16 noSpawnOracle c6State).1.flashTimer = c6State.flashTimer - 2 :=
  (flashTimer_decrement_and_blocks rs6 true 16 noSpawnOracle c6State rfl rfl
    (by norm_num [c6State, initialState])).1

end Audiracer
